import Mathlib

/-!
A verification development for `remote_operator.py` (class `RemoteOperator`).

The Python class wraps a remote-session collaborator exposing
`run(command, warn=..., pty=..., **kwargs) -> Result{failed, ok, command}` and
`put(local, remote)`.  We embed each method as a pure Lean function that is
parametric in a session model (`Session`): the session maps a state and a
command string to a `failed` flag and a next state.  Every operation returns
its outcome (`Except Err Unit`, mirroring Python exceptions), the final
session state, and the ordered trace of remote calls it issued
(`List Call`).  `print` statements are pure observability and are not
modelled.  Wall-clock time in the two poll loops is simulated: each loop
iteration sleeps exactly one second, so the number of whole seconds left
until `max_limit_time` decreases by one per iteration and the deadline test
`current_time >= max_limit_time` holds exactly when that count reaches zero.
-/

namespace RemoteOp

/-- A Python value passed as a (supposedly string) argument: `None`, a
string, or a representative non-string value (an integer). -/
inductive PyVal where
  | vnone
  | vstr (s : String)
  | vint (n : Int)
  deriving DecidableEq, Repr

/-- `isinstance(v, str)`. -/
def PyVal.isStr : PyVal → Bool
  | .vstr _ => true
  | _ => false

/-- Python truthiness of the value. -/
def PyVal.truthy : PyVal → Bool
  | .vnone => false
  | .vstr s => !(s == "")
  | .vint n => !(n == 0)

/-- f-string interpolation of the value. -/
def PyVal.asStr : PyVal → String
  | .vnone => "None"
  | .vstr s => s
  | .vint n => toString n

/-- The caller-supplied `**kwargs` dictionary forwarded to `run`. -/
abbrev Kw := List (String × String)

/-- Python exceptions raised by the operations.  `exn` stands for an
arbitrary exception raised by caller-supplied work inside a `with` block. -/
inductive Err where
  | valueError (msg : String)
  | typeError (msg : String)
  | osError (msg : String)
  | fileNotFoundError (msg : String)
  | exn (tag : String)
  deriving DecidableEq, Repr

/-- One observable interaction with the session (plus two bookkeeping
events: `invokeEnable` marks entry into `enable_crontab`, the call-counting
probe the spec's testable properties ask for, and `sleep` records
`time.sleep`). -/
inductive Call where
  | run (cmd : String) (warn : Bool) (pty : Bool) (kwargs : Kw)
  | put (localAbs : String) (remote : String)
  | invokeEnable (path : PyVal)
  | sleep (secs : Nat)
  deriving DecidableEq, Repr

/-- The remote-session collaborator: `run` returns the `failed` flag of the
command result (`result.command` is just the command string itself, so it is
kept locally), `put` transfers one file. -/
structure Session (σ : Type) where
  run : σ → String → Bool × σ
  put : σ → String → String → σ

/-- Outcome of one operation: Python result or exception, final session
state, and the ordered trace of issued calls. -/
abbrev OpRes (σ : Type) := Except Err Unit × σ × List Call

/-- `RemoteOperator.mkdir`. -/
def mkdir {σ : Type} (sess : Session σ) (s : σ) (remote_path : PyVal) (kw : Kw) : OpRes σ :=
  if !(remote_path.isStr || remote_path.truthy) then
    (Except.error (Err.valueError "remote_path must be string and not be None or empty."), s, [])
  else
    let cmd1 := "ls -l " ++ remote_path.asStr
    let r1 := sess.run s cmd1
    let t1 : List Call := [Call.run cmd1 true false kw]
    if r1.1 then
      let cmd2 := "mkdir -pv " ++ remote_path.asStr
      let r2 := sess.run r1.2 cmd2
      let t2 := t1 ++ [Call.run cmd2 true false kw]
      if r2.1 then
        (Except.error (Err.osError ("Failed to create directory by command: " ++ cmd2)), r2.2, t2)
      else
        (Except.ok (), r2.2, t2)
    else
      (Except.ok (), r1.2, t1)

/-- `RemoteOperator.backup`.  Note that the recursive copy `run` call does
not forward `**kwargs` (the source passes only `warn=True` there). -/
def backup {σ : Type} (sess : Session σ) (s : σ) (path_from path_to : PyVal) (kw : Kw) : OpRes σ :=
  if !(path_from.isStr || path_from.truthy) then
    (Except.error (Err.valueError "path_from must be string and not be None or empty."), s, [])
  else if !(path_to.isStr || path_to.truthy) then
    (Except.error (Err.valueError "path_to must be string and not be None or empty."), s, [])
  else
    let cmd1 := "ls -l " ++ path_from.asStr
    let r1 := sess.run s cmd1
    let t1 : List Call := [Call.run cmd1 true false kw]
    if r1.1 then
      (Except.error (Err.valueError ("path_from does exist on host by command: " ++ cmd1)), r1.2, t1)
    else
      match mkdir sess r1.2 path_to kw with
      | (Except.error e, s2, t2) => (Except.error e, s2, t1 ++ t2)
      | (Except.ok _, s2, t2) =>
        let cmd3 := "cp -prv " ++ path_from.asStr ++ " " ++ path_to.asStr
        let r3 := sess.run s2 cmd3
        let t3 := t1 ++ t2 ++ [Call.run cmd3 true false []]
        if r3.1 then
          (Except.error (Err.osError ("Failed to back up file(s) by command: " ++ cmd3)), r3.2, t3)
        else
          (Except.ok (), r3.2, t3)

/-- A local filesystem entry (`pathlib.Path` resolved against the disk):
either a file with its base name and absolute path, or a directory with its
base name and the entries `iterdir` yields, in order. -/
inductive FSEntry where
  | file (name : String) (absPath : String)
  | dir (name : String) (children : List FSEntry)

/-- The `local_path` argument of `upload`: either a non-`Path` Python value
(rejected by the `isinstance` check) or an actual path. -/
inductive PyObj where
  | prim (v : PyVal)
  | path (e : FSEntry)

theorem sizeOf_fslist_pos (l : List FSEntry) : 0 < sizeOf l := by
  cases l <;> simp

mutual

/-- `RemoteOperator.upload` (recursive; re-validates and re-probes
`test -d` on every recursive call, as the source does). -/
def upload {σ : Type} (sess : Session σ) (s : σ) (local_path : PyObj) (remote_path : PyVal)
    (kw : Kw) : OpRes σ :=
  match local_path with
  | .prim _ => (Except.error (Err.typeError "Type of local_path must be pathlib.Path"), s, [])
  | .path entry =>
    if !(remote_path.isStr || remote_path.truthy) then
      (Except.error (Err.valueError "remote_path must be string and not be None or empty."), s, [])
    else
      let cmdT := "test -d " ++ remote_path.asStr
      let rT := sess.run s cmdT
      let tT : List Call := [Call.run cmdT true false kw]
      if rT.1 then
        (Except.error (Err.osError
          ("Remote path does not exists or is not a directory by command: " ++ cmdT ++ ".")),
         rT.2, tT)
      else
        match entry with
        | .dir name children =>
          match mkdir sess rT.2 (PyVal.vstr (remote_path.asStr ++ "/" ++ name)) kw with
          | (Except.error e, s2, t2) => (Except.error e, s2, tT ++ t2)
          | (Except.ok _, s2, t2) =>
            let rest := uploadChildren sess s2 children (remote_path.asStr ++ "/" ++ name) kw
            (rest.1, rest.2.1, tT ++ t2 ++ rest.2.2)
        | .file name abs =>
          let s2 := sess.put rT.2 abs (remote_path.asStr ++ "/" ++ name)
          (Except.ok (), s2, tT ++ [Call.put abs (remote_path.asStr ++ "/" ++ name)])
termination_by sizeOf local_path
decreasing_by
  all_goals simp_wf
  all_goals omega

/-- The `for p in local_path.iterdir()` loop body of `upload`: recursive
uploads of the children, aborting on the first exception. -/
def uploadChildren {σ : Type} (sess : Session σ) (s : σ) (es : List FSEntry) (rp : String)
    (kw : Kw) : OpRes σ :=
  match es with
  | [] => (Except.ok (), s, [])
  | e :: rest =>
    match upload sess s (PyObj.path e) (PyVal.vstr rp) kw with
    | (Except.error err, s1, t1) => (Except.error err, s1, t1)
    | (Except.ok _, s1, t1) =>
      let r2 := uploadChildren sess s1 rest rp kw
      (r2.1, r2.2.1, t1 ++ r2.2.2)
termination_by sizeOf es
decreasing_by
  all_goals simp_wf
  all_goals have h := sizeOf_fslist_pos rest
  all_goals omega

end

/-- `RemoteOperator.enable_crontab`.  The head `invokeEnable` trace entry
marks method entry (the call-counting probe). -/
def enable_crontab {σ : Type} (sess : Session σ) (s : σ) (file_path : PyVal) (kw : Kw) : OpRes σ :=
  let t0 : List Call := [Call.invokeEnable file_path]
  if !(file_path.isStr || file_path.truthy) then
    (Except.error (Err.valueError "file_path must be string and not be None or empty."), s, t0)
  else
    let cmd1 := "ls -l " ++ file_path.asStr
    let r1 := sess.run s cmd1
    let t1 := t0 ++ [Call.run cmd1 true false kw]
    if r1.1 then
      (Except.error (Err.fileNotFoundError ("Specified file is not found by command: " ++ cmd1)),
       r1.2, t1)
    else
      let r2 := sess.run r1.2 "crontab -l"
      let t2 := t1 ++ [Call.run "crontab -l" true false []]
      let cmd3 := "crontab " ++ file_path.asStr
      let r3 := sess.run r2.2 cmd3
      let t3 := t2 ++ [Call.run cmd3 true false kw]
      if r3.1 then
        (Except.error (Err.osError ("Failed to enable crontab by command: " ++ cmd3)), r3.2, t3)
      else
        let r4 := sess.run r3.2 "crontab -l"
        let t4 := t3 ++ [Call.run "crontab -l" true false []]
        (Except.ok (), r4.2, t4)

/-- The part of `RemoteOperator.disable_crontab` before its `yield`
(everything the context manager runs on entry). -/
def disable_crontab_enter {σ : Type} (sess : Session σ) (s : σ) (workspace save_filename : PyVal)
    (kw : Kw) : OpRes σ :=
  if !(workspace.isStr || workspace.truthy) then
    (Except.error (Err.valueError "workspace must be string and not be None or empty."), s, [])
  else if !(save_filename.isStr || save_filename.truthy) then
    (Except.error (Err.valueError "save_filename must be string and not be None or empty."), s, [])
  else
    let ws := workspace.asStr
    let sf := save_filename.asStr
    let cmd1 := "test -d " ++ ws
    let r1 := sess.run s cmd1
    let t1 : List Call := [Call.run cmd1 true false kw]
    if r1.1 then
      (Except.error (Err.osError
        ("workspace does not exist or is not a directory by command: " ++ cmd1 ++ ".")), r1.2, t1)
    else
      let cmd2 := "crontab -l > " ++ ws ++ "/" ++ sf
      let r2 := sess.run r1.2 cmd2
      let t2 := t1 ++ [Call.run cmd2 true false kw]
      if r2.1 then
        (Except.error (Err.osError ("Failed to save the crontab file by command: " ++ cmd2)),
         r2.2, t2)
      else
        let cmd3 := "cat " ++ ws ++ "/" ++ sf
        let r3 := sess.run r2.2 cmd3
        let t3 := t2 ++ [Call.run cmd3 true false []]
        let empty_filename := "crontab.empty"
        let cmd4 := "rm " ++ ws ++ "/" ++ empty_filename
        let r4 := sess.run r3.2 cmd4
        let t4 := t3 ++ [Call.run cmd4 true false []]
        let cmd5 := "touch " ++ ws ++ "/" ++ empty_filename
        let r5 := sess.run r4.2 cmd5
        let t5 := t4 ++ [Call.run cmd5 true false kw]
        if r5.1 then
          (Except.error (Err.osError ("Failed to create a file by command: " ++ cmd5)), r5.2, t5)
        else
          let cmd6 := "crontab " ++ ws ++ "/" ++ empty_filename
          let r6 := sess.run r5.2 cmd6
          let t6 := t5 ++ [Call.run cmd6 true false kw]
          if r6.1 then
            (Except.error (Err.osError ("Failed to disable crontab by command: " ++ cmd6)),
             r6.2, t6)
          else
            (Except.ok (), r6.2, t6)

/-- `with RemoteOperator.disable_crontab(ws, sf): body` — the context
manager used as a scoped block: on setup failure the body never runs; once
the `yield` is reached, `enable_crontab` on the saved-file path runs in the
`finally` on every exit path, and an exception from the restoration itself
replaces the body's outcome (Python `finally` semantics). -/
def disable_crontab_with {σ : Type} (sess : Session σ) (s : σ) (workspace save_filename : PyVal)
    (kw : Kw) (body : σ → OpRes σ) : OpRes σ :=
  match disable_crontab_enter sess s workspace save_filename kw with
  | (Except.error e, s1, t1) => (Except.error e, s1, t1)
  | (Except.ok _, s1, t1) =>
    let rB := body s1
    let rE := enable_crontab sess rB.2.1
      (PyVal.vstr (workspace.asStr ++ "/" ++ save_filename.asStr)) []
    ((match rE.1 with
      | Except.error e => Except.error e
      | Except.ok _ => rB.1), rE.2.1, t1 ++ rB.2.2 ++ rE.2.2)

/-- The `ps -ef | grep <pattern> | grep -v grep` probe command. -/
def psCmd (pattern : String) : String := "ps -ef | grep " ++ pattern ++ " | grep -v grep"

/-- The stop-side timeout message (a fixed string, no command in it). -/
def stopTimeoutMsg : String :=
  "Process could not be stopped within 60 seconds, Please check the server spec."

/-- The start-side timeout message (a fixed string, no command in it). -/
def startTimeoutMsg : String :=
  "Process could not be started within 60 seconds, Please check the server spec."

/-- The poll loop of `stop_process_with_kill_file`.  `remaining` is the
number of whole simulated seconds left until `max_limit_time`; each
iteration that still sees the process sleeps one second, so the Python
deadline test `current_time >= max_limit_time` holds exactly when
`remaining = 0`. -/
def pollStop {σ : Type} (sess : Session σ) (pattern : String) (kw : Kw) :
    Nat → σ → OpRes σ
  | 0, s => (Except.error (Err.osError stopTimeoutMsg), s, [])
  | remaining + 1, s =>
    let r := sess.run s (psCmd pattern)
    let t : List Call := [Call.run (psCmd pattern) true false kw]
    if r.1 then
      (Except.ok (), r.2, t)
    else
      let rest := pollStop sess pattern kw remaining r.2
      (rest.1, rest.2.1, t ++ Call.sleep 1 :: rest.2.2)

/-- `RemoteOperator.stop_process_with_kill_file`. -/
def stop_process_with_kill_file {σ : Type} (sess : Session σ) (s : σ)
    (to_be_created_kill_file_path process_name_pattern : PyVal) (kw : Kw) : OpRes σ :=
  let pat := process_name_pattern.asStr
  let r1 := sess.run s (psCmd pat)
  let t1 : List Call := [Call.run (psCmd pat) true false kw]
  if r1.1 then
    (Except.ok (), r1.2, t1)
  else
    let cmd2 := "touch " ++ to_be_created_kill_file_path.asStr
    let r2 := sess.run r1.2 cmd2
    let t2 := t1 ++ [Call.run cmd2 true false kw]
    if r2.1 then
      (Except.error (Err.osError ("Failed to create a kill file by command: " ++ cmd2)), r2.2, t2)
    else
      let rest := pollStop sess pat kw 60 r2.2
      (rest.1, rest.2.1, t2 ++ rest.2.2)

/-- The poll loop of `start_process_with_kill_file`: same loop, success
condition inverted. -/
def pollStart {σ : Type} (sess : Session σ) (pattern : String) (kw : Kw) :
    Nat → σ → OpRes σ
  | 0, s => (Except.error (Err.osError startTimeoutMsg), s, [])
  | remaining + 1, s =>
    let r := sess.run s (psCmd pattern)
    let t : List Call := [Call.run (psCmd pattern) true false kw]
    if r.1 then
      let rest := pollStart sess pattern kw remaining r.2
      (rest.1, rest.2.1, t ++ Call.sleep 1 :: rest.2.2)
    else
      (Except.ok (), r.2, t)

/-- `RemoteOperator.start_process_with_kill_file`.  Note that the
removal-failure error message interpolates the kill-file path, and the
kill-file `ls`/`rm` calls forward no kwargs (source passes only
`warn=True` there). -/
def start_process_with_kill_file {σ : Type} (sess : Session σ) (s : σ)
    (to_be_removed_kill_file_path process_name_pattern exec_file_path : PyVal)
    (kw : Kw) : OpRes σ :=
  let pat := process_name_pattern.asStr
  let kp := to_be_removed_kill_file_path.asStr
  let r1 := sess.run s (psCmd pat)
  let t1 : List Call := [Call.run (psCmd pat) true false kw]
  if r1.1 then
    let cmdLs := "ls -l " ++ kp
    let r2 := sess.run r1.2 cmdLs
    let t2 := t1 ++ [Call.run cmdLs true false []]
    let afterRm : OpRes σ :=
      if r2.1 then
        (Except.ok (), r2.2, t2)
      else
        let cmdRm := "rm -v " ++ kp
        let r3 := sess.run r2.2 cmdRm
        let t3 := t2 ++ [Call.run cmdRm true false []]
        if r3.1 then
          (Except.error (Err.osError ("Failed to remove the kill file by command: " ++ kp)),
           r3.2, t3)
        else
          (Except.ok (), r3.2, t3)
    match afterRm with
    | (Except.error e, s', t') => (Except.error e, s', t')
    | (Except.ok _, s3, t3) =>
      let cmdStart := "nohup sh " ++ exec_file_path.asStr ++ " &"
      let r4 := sess.run s3 cmdStart
      let t4 := t3 ++ [Call.run cmdStart true true kw]
      if r4.1 then
        (Except.error (Err.osError ("Failed to start the application by command: " ++ cmdStart)),
         r4.2, t4)
      else
        let rest := pollStart sess pat kw 60 r4.2
        (rest.1, rest.2.1, t4 ++ rest.2.2)
  else
    (Except.ok (), r1.2, t1)

/-! ### Session models and trace-inspection helpers -/

/-- A fake session on which every command succeeds and transfers are
dropped. -/
def allOkSession : Session Unit :=
  { run := fun s _ => (false, s), put := fun s _ _ => s }

/-- A fake session that fails exactly the commands in `bads`. -/
def failOnList (bads : List String) : Session Unit :=
  { run := fun s c => (bads.contains c, s), put := fun s _ _ => s }

/-- `dropLead pre l` removes the leading run `pre` from `l`, or `none` when
`pre` is not a leading run of `l`. -/
def dropLead : List Char → List Char → Option (List Char)
  | [], l => some l
  | _ :: _, [] => none
  | a :: as, b :: bs => if a = b then dropLead as bs else none

/-- `stripLead pre s` removes the leading substring `pre` from `s`. -/
def stripLead (pre s : String) : Option String :=
  (dropLead pre.data s.data).map String.mk

theorem dropLead_append (pre rest : List Char) : dropLead pre (pre ++ rest) = some rest := by
  induction pre with
  | nil => rfl
  | cons a as ih => simp [dropLead, ih]

theorem stripLead_append (pre rest : String) : stripLead pre (pre ++ rest) = some rest := by
  obtain ⟨dp⟩ := pre
  obtain ⟨dr⟩ := rest
  simp [stripLead, String.data, dropLead_append]

theorem stripLead_test_ls (p : String) : stripLead "test -d " ("ls -l " ++ p) = none := by
  obtain ⟨d⟩ := p
  rfl

theorem stripLead_test_mkdir (p : String) : stripLead "test -d " ("mkdir -pv " ++ p) = none := by
  obtain ⟨d⟩ := p
  rfl

theorem stripLead_ls_mkdir (p : String) : stripLead "ls -l " ("mkdir -pv " ++ p) = none := by
  obtain ⟨d⟩ := p
  rfl

theorem stripLead_ls_test (p : String) : stripLead "ls -l " ("test -d " ++ p) = none := by
  obtain ⟨d⟩ := p
  rfl

theorem stripLead_mkdir_test (p : String) : stripLead "mkdir -pv " ("test -d " ++ p) = none := by
  obtain ⟨d⟩ := p
  rfl

theorem stripLead_mkdir_ls (p : String) : stripLead "mkdir -pv " ("ls -l " ++ p) = none := by
  obtain ⟨d⟩ := p
  rfl

/-- A fake remote filesystem: the state is the list of existing remote
directories.  `ls -l`/`test -d` succeed exactly on existing entries and
`mkdir -pv` records the new directory; every other command succeeds. -/
def dirRun (dirs : List String) (cmd : String) : Bool × List String :=
  match stripLead "test -d " cmd with
  | some p => (!(dirs.contains p), dirs)
  | none =>
    match stripLead "ls -l " cmd with
    | some p => (!(dirs.contains p), dirs)
    | none =>
      match stripLead "mkdir -pv " cmd with
      | some p => (false, p :: dirs)
      | none => (false, dirs)

def dirSession : Session (List String) :=
  { run := dirRun, put := fun s _ _ => s }

theorem dirRun_test (dirs : List String) (p : String) :
    dirRun dirs ("test -d " ++ p) = (!(dirs.contains p), dirs) := by
  have h : stripLead "test -d " ("test -d " ++ p) = some p := stripLead_append _ _
  simp [dirRun, h]

theorem dirRun_ls (dirs : List String) (p : String) :
    dirRun dirs ("ls -l " ++ p) = (!(dirs.contains p), dirs) := by
  have h : stripLead "ls -l " ("ls -l " ++ p) = some p := stripLead_append _ _
  simp [dirRun, stripLead_test_ls, h]

theorem dirRun_mkdir (dirs : List String) (p : String) :
    dirRun dirs ("mkdir -pv " ++ p) = (false, p :: dirs) := by
  have h : stripLead "mkdir -pv " ("mkdir -pv " ++ p) = some p := stripLead_append _ _
  simp [dirRun, stripLead_test_mkdir, stripLead_ls_mkdir, h]

/-- The remote path created by a `mkdir -pv` call, if the trace entry is
one. -/
def createdPath (c : Call) : Option String :=
  match c with
  | .run cmd _ _ _ => stripLead "mkdir -pv " cmd
  | _ => none

/-- The `(local, remote)` pair of a file-transfer trace entry. -/
def putTarget (c : Call) : Option (String × String) :=
  match c with
  | .put l r => some (l, r)
  | _ => none

/-- Keeps exactly the structure-bearing calls of an upload trace: directory
creations and file transfers, in order. -/
def structCall (c : Call) : Option Call :=
  match c with
  | .run cmd _ _ _ => if (stripLead "mkdir -pv " cmd).isSome then some c else none
  | .put _ _ => some c
  | _ => none

/-- Number of `mkdir -pv` creation commands in a trace. -/
def countCreates (t : List Call) : Nat := (t.filterMap createdPath).length

/-- Number of `enable_crontab` invocations recorded in a trace. -/
def countInvoke (t : List Call) : Nat :=
  (t.filter (fun c => match c with | .invokeEnable _ => true | _ => false)).length

/-- Membership in the fake filesystem after a `mkdir` call: the target path
exists afterwards (either it already did, or `mkdir -pv` recorded it). -/
theorem mkdir_dirSession_mem (S : List String) (p : String) (kw : Kw) :
    p ∈ (mkdir dirSession S (PyVal.vstr p) kw).2.1 := by
  have hrun : dirSession.run S ("ls -l " ++ p) = (!(S.contains p), S) := dirRun_ls S p
  have hrun2 : dirSession.run S ("mkdir -pv " ++ p) = (false, p :: S) := dirRun_mkdir S p
  simp [mkdir, PyVal.isStr, PyVal.truthy, PyVal.asStr, hrun, hrun2]
  split <;> simp_all

/-! ### Claim theorems -/

/-- Claim C1 (code-bug evidence): the validation guard
`not (isinstance(x, str) or x)` accepts an empty string (it is a `str`) and
any truthy non-string, so `mkdir`, `backup`, `upload`, `disable_crontab`
and `enable_crontab` all proceed to issue remote `run`/`put` calls on such
arguments instead of raising the documented `ValueError`.  Each conjunct
evaluates the operation on an all-succeeding session and exhibits the
issued remote calls with no validation error. -/
theorem C1_invalid_paths_reach_session :
    mkdir allOkSession () (PyVal.vstr "") []
      = (Except.ok (), (), [Call.run "ls -l " true false []]) ∧
    mkdir allOkSession () (PyVal.vint 7) []
      = (Except.ok (), (), [Call.run "ls -l 7" true false []]) ∧
    backup allOkSession () (PyVal.vstr "") (PyVal.vstr "") []
      = (Except.ok (), (),
         [Call.run "ls -l " true false [], Call.run "ls -l " true false [],
          Call.run "cp -prv  " true false []]) ∧
    upload allOkSession () (PyObj.path (FSEntry.file "f" "/l/f")) (PyVal.vstr "") []
      = (Except.ok (), (), [Call.run "test -d " true false [], Call.put "/l/f" "/f"]) ∧
    disable_crontab_enter allOkSession () (PyVal.vstr "") (PyVal.vstr "") []
      = (Except.ok (), (),
         [Call.run "test -d " true false [], Call.run "crontab -l > /" true false [],
          Call.run "cat /" true false [], Call.run "rm /crontab.empty" true false [],
          Call.run "touch /crontab.empty" true false [],
          Call.run "crontab /crontab.empty" true false []]) ∧
    enable_crontab allOkSession () (PyVal.vstr "") []
      = (Except.ok (), (),
         [Call.invokeEnable (PyVal.vstr ""), Call.run "ls -l " true false [],
          Call.run "crontab -l" true false [], Call.run "crontab " true false [],
          Call.run "crontab -l" true false []]) := by
  refine ⟨rfl, rfl, rfl, ?_, rfl, rfl⟩
  simp +decide [upload, allOkSession]

/-- Claim C5: if the source-existence probe of `backup` fails, the
operation raises immediately; its whole trace is the single probe call, so
neither the copy command nor the directory-ensure step for `path_to` is
ever issued. -/
theorem C5_backup_probe_failure_is_fatal :
    ∀ (σ : Type) (sess : Session σ) (s : σ) (pf pt : String) (kw : Kw),
      pf ≠ "" → pt ≠ "" →
      (sess.run s ("ls -l " ++ pf)).1 = true →
      backup sess s (PyVal.vstr pf) (PyVal.vstr pt) kw
        = (Except.error (Err.valueError
            ("path_from does exist on host by command: " ++ ("ls -l " ++ pf))),
           (sess.run s ("ls -l " ++ pf)).2,
           [Call.run ("ls -l " ++ pf) true false kw]) := by
  intro σ sess s pf pt kw hpf hpt h
  simp [backup, PyVal.isStr, PyVal.truthy, PyVal.asStr, h]

theorem C5_backup_probe_failure_is_fatal_witness :
    ((failOnList ["ls -l /src"]).run () "ls -l /src").1 = true ∧
    backup (failOnList ["ls -l /src"]) () (PyVal.vstr "/src") (PyVal.vstr "/dst")
        [("echo", "True")]
      = (Except.error (Err.valueError "path_from does exist on host by command: ls -l /src"),
         (), [Call.run "ls -l /src" true false [("echo", "True")]]) :=
  ⟨by decide,
   C5_backup_probe_failure_is_fatal Unit (failOnList ["ls -l /src"]) () "/src" "/dst"
     [("echo", "True")] (by decide) (by decide) (by decide)⟩

/-- Claim C6: `mkdir` is idempotent.  First conjunct: whenever the `ls -l`
existence probe succeeds, `mkdir` issues no creation command and returns
successfully (its whole trace is the probe).  Second conjunct: against the
fake filesystem session, a second `mkdir` of the same path issues no
`mkdir -pv` command and succeeds, because the directory exists after the
first call. -/
theorem C6_mkdir_idempotent :
    (∀ (σ : Type) (sess : Session σ) (s : σ) (p : String) (kw : Kw),
      p ≠ "" →
      (sess.run s ("ls -l " ++ p)).1 = false →
      mkdir sess s (PyVal.vstr p) kw
        = (Except.ok (), (sess.run s ("ls -l " ++ p)).2,
           [Call.run ("ls -l " ++ p) true false kw])) ∧
    (∀ (S : List String) (p : String) (kw : Kw),
      p ≠ "" →
      countCreates (mkdir dirSession (mkdir dirSession S (PyVal.vstr p) kw).2.1
        (PyVal.vstr p) kw).2.2 = 0 ∧
      (mkdir dirSession (mkdir dirSession S (PyVal.vstr p) kw).2.1 (PyVal.vstr p) kw).1
        = Except.ok ()) := by
  constructor
  · intro σ sess s p kw hp h
    simp [mkdir, PyVal.isStr, PyVal.truthy, PyVal.asStr, h]
  · intro S p kw hp
    set S1 := (mkdir dirSession S (PyVal.vstr p) kw).2.1 with hS1
    have hmem : p ∈ S1 := mkdir_dirSession_mem S p kw
    have hcont : S1.contains p = true := by
      simpa [List.contains] using (@List.elem_iff String _ _ p S1).mpr hmem
    have hrun : dirSession.run S1 ("ls -l " ++ p) = (false, S1) := by
      rw [show dirSession.run S1 ("ls -l " ++ p) = dirRun S1 ("ls -l " ++ p) from rfl,
        dirRun_ls, hcont]
      rfl
    constructor
    · simp [mkdir, PyVal.isStr, PyVal.truthy, PyVal.asStr, hrun, countCreates,
        createdPath, stripLead_mkdir_ls]
    · simp [mkdir, PyVal.isStr, PyVal.truthy, PyVal.asStr, hrun]

theorem C6_mkdir_idempotent_witness :
    ("/data" : String) ≠ "" ∧
    countCreates (mkdir dirSession (mkdir dirSession [] (PyVal.vstr "/data") []).2.1
      (PyVal.vstr "/data") []).2.2 = 0 ∧
    (mkdir dirSession (mkdir dirSession [] (PyVal.vstr "/data") []).2.1
      (PyVal.vstr "/data") []).1 = Except.ok () :=
  ⟨by decide, (C6_mkdir_idempotent.2 [] "/data" [] (by decide)).1,
    (C6_mkdir_idempotent.2 [] "/data" [] (by decide)).2⟩

/-- Claim C8: when the initial process probe of
`start_process_with_kill_file` reports a matching process, the operation
returns successfully after that single probe; its trace contains no
kill-file `ls`, no removal, and no launch call. -/
theorem C8_start_noop_when_running :
    ∀ (σ : Type) (sess : Session σ) (s : σ) (kp pat ef : PyVal) (kw : Kw),
      (sess.run s (psCmd pat.asStr)).1 = false →
      start_process_with_kill_file sess s kp pat ef kw
        = (Except.ok (), (sess.run s (psCmd pat.asStr)).2,
           [Call.run (psCmd pat.asStr) true false kw]) := by
  intro σ sess s kp pat ef kw h
  simp [start_process_with_kill_file, h]

theorem C8_start_noop_when_running_witness :
    ((allOkSession.run () (psCmd "myapp")).1 = false) ∧
    start_process_with_kill_file allOkSession () (PyVal.vstr "/tmp/kill")
        (PyVal.vstr "myapp") (PyVal.vstr "/srv/run.sh") []
      = (Except.ok (), (), [Call.run (psCmd "myapp") true false []]) :=
  ⟨rfl,
   C8_start_noop_when_running Unit allOkSession () (PyVal.vstr "/tmp/kill")
     (PyVal.vstr "myapp") (PyVal.vstr "/srv/run.sh") [] rfl⟩

/-- Claim C9: of the calls `backup` can issue, the probe and the
directory-ensure (`ls -l`/`mkdir -pv`) runs forward the caller's kwargs,
while the recursive-copy run never does (it is issued with `warn=True`
only).  The trace of any `backup` execution takes exactly one of these four
shapes. -/
theorem C9_backup_copy_gets_no_kwargs :
    ∀ (σ : Type) (sess : Session σ) (s : σ) (pf pt : String) (kw : Kw),
      (backup sess s (PyVal.vstr pf) (PyVal.vstr pt) kw).2.2
          = [Call.run ("ls -l " ++ pf) true false kw] ∨
      (backup sess s (PyVal.vstr pf) (PyVal.vstr pt) kw).2.2
          = [Call.run ("ls -l " ++ pf) true false kw,
             Call.run ("ls -l " ++ pt) true false kw,
             Call.run ("cp -prv " ++ pf ++ " " ++ pt) true false []] ∨
      (backup sess s (PyVal.vstr pf) (PyVal.vstr pt) kw).2.2
          = [Call.run ("ls -l " ++ pf) true false kw,
             Call.run ("ls -l " ++ pt) true false kw,
             Call.run ("mkdir -pv " ++ pt) true false kw] ∨
      (backup sess s (PyVal.vstr pf) (PyVal.vstr pt) kw).2.2
          = [Call.run ("ls -l " ++ pf) true false kw,
             Call.run ("ls -l " ++ pt) true false kw,
             Call.run ("mkdir -pv " ++ pt) true false kw,
             Call.run ("cp -prv " ++ pf ++ " " ++ pt) true false []] := by
  intro σ sess s pf pt kw
  rcases h1 : sess.run s ("ls -l " ++ pf) with ⟨f1, s1⟩
  cases f1
  · rcases h2 : sess.run s1 ("ls -l " ++ pt) with ⟨f2, s2⟩
    cases f2
    · rcases h3 : sess.run s2 ("cp -prv " ++ pf ++ " " ++ pt) with ⟨f3, s3⟩
      cases f3 <;>
        simp [backup, mkdir, PyVal.isStr, PyVal.truthy, PyVal.asStr, h1, h2, h3]
    · rcases h4 : sess.run s2 ("mkdir -pv " ++ pt) with ⟨f4, s4⟩
      cases f4
      · rcases h5 : sess.run s4 ("cp -prv " ++ pf ++ " " ++ pt) with ⟨f5, s5⟩
        cases f5 <;>
          simp [backup, mkdir, PyVal.isStr, PyVal.truthy, PyVal.asStr, h1, h2, h4, h5]
      · simp [backup, mkdir, PyVal.isStr, PyVal.truthy, PyVal.asStr, h1, h2, h4]
  · simp [backup, PyVal.isStr, PyVal.truthy, PyVal.asStr, h1]

/-- Claim C10: `disable_crontab` uses the fixed scratch name
`crontab.empty` under the workspace for the empty crontab it installs: the
full trace of a successful scoped run shows the `rm`/`touch`/`crontab`
scratch commands built from the workspace only, and those three trace
entries are identical for any two save filenames sharing a workspace. -/
theorem C10_scratch_path_depends_only_on_workspace :
    (∀ ws sf : String,
      disable_crontab_with allOkSession () (PyVal.vstr ws) (PyVal.vstr sf) []
          (fun s => (Except.ok (), s, []))
        = (Except.ok (), (),
           [Call.run ("test -d " ++ ws) true false [],
            Call.run ("crontab -l > " ++ ws ++ "/" ++ sf) true false [],
            Call.run ("cat " ++ ws ++ "/" ++ sf) true false [],
            Call.run ("rm " ++ ws ++ "/" ++ "crontab.empty") true false [],
            Call.run ("touch " ++ ws ++ "/" ++ "crontab.empty") true false [],
            Call.run ("crontab " ++ ws ++ "/" ++ "crontab.empty") true false [],
            Call.invokeEnable (PyVal.vstr (ws ++ "/" ++ sf)),
            Call.run ("ls -l " ++ (ws ++ "/" ++ sf)) true false [],
            Call.run "crontab -l" true false [],
            Call.run ("crontab " ++ (ws ++ "/" ++ sf)) true false [],
            Call.run "crontab -l" true false []])) ∧
    (∀ ws sf1 sf2 : String,
      ((disable_crontab_with allOkSession () (PyVal.vstr ws) (PyVal.vstr sf1) []
          (fun s => (Except.ok (), s, []))).2.2.drop 3).take 3
        = ((disable_crontab_with allOkSession () (PyVal.vstr ws) (PyVal.vstr sf2) []
          (fun s => (Except.ok (), s, []))).2.2.drop 3).take 3) := by
  constructor
  · intro ws sf
    rfl
  · intro ws sf1 sf2
    rfl

/-- `disable_crontab` records no `enable_crontab` invocation before its
`yield`. -/
theorem disable_enter_no_invoke {σ : Type} (sess : Session σ) (s : σ)
    (ws sf : PyVal) (kw : Kw) :
    countInvoke (disable_crontab_enter sess s ws sf kw).2.2 = 0 := by
  dsimp only [disable_crontab_enter]
  repeat' split
  all_goals rfl

/-- `enable_crontab` records exactly one invocation, at the head of its
trace. -/
theorem enable_trace_shape {σ : Type} (sess : Session σ) (s : σ)
    (fp : PyVal) (kw : Kw) :
    ∃ rest, (enable_crontab sess s fp kw).2.2 = Call.invokeEnable fp :: rest ∧
      countInvoke rest = 0 := by
  dsimp only [enable_crontab]
  repeat' split
  all_goals exact ⟨_, rfl, rfl⟩

theorem countInvoke_append (a b : List Call) :
    countInvoke (a ++ b) = countInvoke a + countInvoke b := by
  simp [countInvoke]

theorem countInvoke_invoke_cons (p : PyVal) (l : List Call) :
    countInvoke (Call.invokeEnable p :: l) = countInvoke l + 1 := by
  simp [countInvoke, List.filter_cons]

/-- Claim C2: once `disable_crontab`'s setup succeeds, then whatever the
wrapped work does — in particular when it raises — `enable_crontab` is
invoked exactly once, with the saved-file path `<workspace>/<save_filename>`,
after the work's own calls; and the work's exception propagates to the
caller once the restoration succeeds. -/
theorem C2_disable_crontab_always_restores :
    ∀ (σ : Type) (sess : Session σ) (s : σ) (ws sf : String) (kw : Kw)
      (body : σ → OpRes σ) (s1 : σ) (t1 : List Call),
      disable_crontab_enter sess s (PyVal.vstr ws) (PyVal.vstr sf) kw
        = (Except.ok (), s1, t1) →
      countInvoke (body s1).2.2 = 0 →
      countInvoke (disable_crontab_with sess s (PyVal.vstr ws) (PyVal.vstr sf) kw body).2.2
          = 1 ∧
      (∃ rest,
        (disable_crontab_with sess s (PyVal.vstr ws) (PyVal.vstr sf) kw body).2.2
          = t1 ++ (body s1).2.2
              ++ Call.invokeEnable (PyVal.vstr (ws ++ "/" ++ sf)) :: rest) ∧
      (∀ e : Err, (body s1).1 = Except.error e →
        (enable_crontab sess (body s1).2.1 (PyVal.vstr (ws ++ "/" ++ sf)) []).1
          = Except.ok () →
        (disable_crontab_with sess s (PyVal.vstr ws) (PyVal.vstr sf) kw body).1
          = Except.error e) := by
  intro σ sess s ws sf kw body s1 t1 henter hbody
  have ht1 : countInvoke t1 = 0 := by
    have h := disable_enter_no_invoke sess s (PyVal.vstr ws) (PyVal.vstr sf) kw
    rw [henter] at h
    exact h
  obtain ⟨rest, hre, hrest⟩ :=
    enable_trace_shape sess (body s1).2.1 (PyVal.vstr (ws ++ "/" ++ sf)) []
  have hw : disable_crontab_with sess s (PyVal.vstr ws) (PyVal.vstr sf) kw body
      = ((match (enable_crontab sess (body s1).2.1 (PyVal.vstr (ws ++ "/" ++ sf)) []).1 with
          | Except.error e => Except.error e
          | Except.ok _ => (body s1).1),
         (enable_crontab sess (body s1).2.1 (PyVal.vstr (ws ++ "/" ++ sf)) []).2.1,
         t1 ++ (body s1).2.2
           ++ (enable_crontab sess (body s1).2.1 (PyVal.vstr (ws ++ "/" ++ sf)) []).2.2) := by
    simp only [disable_crontab_with, henter, PyVal.asStr]
  refine ⟨?_, ?_, ?_⟩
  · rw [hw]
    simp only [hre, countInvoke_append, countInvoke_invoke_cons, ht1, hbody, hrest]
  · exact ⟨rest, by rw [hw, hre]⟩
  · intro e hb hok
    rw [hw]
    simp [hok, hb]

theorem C2_disable_crontab_always_restores_witness :
    disable_crontab_enter allOkSession () (PyVal.vstr "/w") (PyVal.vstr "crontab.save") []
      = (Except.ok (), (),
         [Call.run "test -d /w" true false [],
          Call.run "crontab -l > /w/crontab.save" true false [],
          Call.run "cat /w/crontab.save" true false [],
          Call.run "rm /w/crontab.empty" true false [],
          Call.run "touch /w/crontab.empty" true false [],
          Call.run "crontab /w/crontab.empty" true false []]) ∧
    countInvoke (disable_crontab_with allOkSession () (PyVal.vstr "/w")
      (PyVal.vstr "crontab.save") []
      (fun s => (Except.error (Err.exn "boom"), s, [Call.run "task" true false []]))).2.2 = 1 ∧
    (disable_crontab_with allOkSession () (PyVal.vstr "/w") (PyVal.vstr "crontab.save") []
      (fun s => (Except.error (Err.exn "boom"), s, [Call.run "task" true false []]))).1
        = Except.error (Err.exn "boom") :=
  ⟨rfl,
   (C2_disable_crontab_always_restores Unit allOkSession () "/w" "crontab.save" []
     (fun s => (Except.error (Err.exn "boom"), s, [Call.run "task" true false []]))
     () _ rfl rfl).1,
   (C2_disable_crontab_always_restores Unit allOkSession () "/w" "crontab.save" []
     (fun s => (Except.error (Err.exn "boom"), s, [Call.run "task" true false []]))
     () _ rfl rfl).2.2 (Err.exn "boom") rfl rfl⟩

/-! ### C7: the stop poll loop -/

/-- The calls one timed-out stop poll loop issues: `remaining` probes, each
followed by a one-second sleep. -/
def stopLoopTrace (pat : String) (kw : Kw) : Nat → List Call
  | 0 => []
  | k + 1 =>
    Call.run (psCmd pat) true false kw :: Call.sleep 1 :: stopLoopTrace pat kw k

theorem stopLoopTrace_count_sleep (pat : String) (kw : Kw) :
    ∀ k : Nat, (stopLoopTrace pat kw k).count (Call.sleep 1) = k := by
  intro k
  induction k with
  | zero => rfl
  | succ n ih => simp [stopLoopTrace, List.count_cons, ih]

theorem stopLoopTrace_count_probe (pat : String) (kw : Kw) :
    ∀ k : Nat, (stopLoopTrace pat kw k).count (Call.run (psCmd pat) true false kw) = k := by
  intro k
  induction k with
  | zero => rfl
  | succ n ih => simp [stopLoopTrace, List.count_cons, ih]

/-- If the process probe keeps finding a match in every state, the stop
poll loop runs down its whole deadline and times out, probing and sleeping
once per remaining second. -/
theorem pollStop_always_match {σ : Type} (sess : Session σ) (pat : String) (kw : Kw)
    (H : ∀ st : σ, (sess.run st (psCmd pat)).1 = false) :
    ∀ (k : Nat) (st : σ), ∃ st',
      pollStop sess pat kw k st
        = (Except.error (Err.osError stopTimeoutMsg), st', stopLoopTrace pat kw k) := by
  intro k
  induction k with
  | zero => intro st; exact ⟨st, rfl⟩
  | succ n ih =>
    intro st
    obtain ⟨st', h⟩ := ih (sess.run st (psCmd pat)).2
    refine ⟨st', ?_⟩
    simp [pollStop, H st, h, stopLoopTrace]

/-- A session whose state counts the probes issued so far: the `n`-th
process probe reports no match exactly when `f n` is true; all other
commands succeed without advancing the count. -/
def probeCountSession (pat : String) (f : Nat → Bool) : Session Nat :=
  { run := fun n cmd => if cmd = psCmd pat then (f n, n + 1) else (false, n),
    put := fun n _ _ => n }

/-- The stop poll loop returns successfully as soon as some probe within
the deadline finds no match. -/
theorem pollStop_early_ok (pat : String) (kw : Kw) (f : Nat → Bool) :
    ∀ (k i : Nat),
      (∃ j, j < k ∧ f (i + j) = true ∧ ∀ m < j, f (i + m) = false) →
      (pollStop (probeCountSession pat f) pat kw k i).1 = Except.ok () := by
  intro k
  induction k with
  | zero =>
    intro i ⟨j, hjk, _, _⟩
    omega
  | succ n ih =>
    intro i ⟨j, hjk, hj, hmin⟩
    have hrun : (probeCountSession pat f).run i (psCmd pat) = (f i, i + 1) := by
      simp [probeCountSession]
    cases hfi : f i
    · have hj0 : j ≠ 0 := by
        intro h
        rw [h, Nat.add_zero] at hj
        rw [hfi] at hj
        exact Bool.false_ne_true hj
      obtain ⟨j', rfl⟩ := Nat.exists_eq_succ_of_ne_zero hj0
      have step : (pollStop (probeCountSession pat f) pat kw (n + 1) i).1
          = (pollStop (probeCountSession pat f) pat kw n (i + 1)).1 := by
        simp [pollStop, hrun, hfi]
      rw [step]
      refine ih (i + 1) ⟨j', by omega, ?_, ?_⟩
      · rw [show i + 1 + j' = i + (j' + 1) by omega]
        exact hj
      · intro m hm
        rw [show i + 1 + m = i + (m + 1) by omega]
        exact hmin (m + 1) (by omega)
    · simp [pollStop, hrun, hfi]

/-- Claim C7: `stop_process_with_kill_file` against a session whose
process probe always reports a match creates the kill file and then times
out: the result is the 60-second timeout error and the trace is the initial
probe, the `touch`, and sixty further probes each separated by a one-second
sleep.  The loop trace contains exactly `k` sleeps and `k` probes at every
deadline `k`.  Conversely, with a counting session the loop returns
successfully as soon as any re-probe within the deadline finds no match. -/
theorem C7_stop_polls_then_times_out :
    (∀ (σ : Type) (sess : Session σ) (s : σ) (kp pat : String) (kw : Kw),
      (∀ st : σ, (sess.run st (psCmd pat)).1 = false) →
      (∀ st : σ, (sess.run st ("touch " ++ kp)).1 = false) →
      ∃ st', stop_process_with_kill_file sess s (PyVal.vstr kp) (PyVal.vstr pat) kw
        = (Except.error (Err.osError stopTimeoutMsg), st',
           Call.run (psCmd pat) true false kw :: Call.run ("touch " ++ kp) true false kw ::
             stopLoopTrace pat kw 60)) ∧
    (∀ (pat : String) (kw : Kw) (k : Nat),
      (stopLoopTrace pat kw k).count (Call.sleep 1) = k ∧
      (stopLoopTrace pat kw k).count (Call.run (psCmd pat) true false kw) = k) ∧
    (∀ (kp pat : String) (kw : Kw) (f : Nat → Bool),
      f 0 = false →
      ("touch " ++ kp) ≠ psCmd pat →
      (∃ j, j < 60 ∧ f (1 + j) = true ∧ ∀ m < j, f (1 + m) = false) →
      (stop_process_with_kill_file (probeCountSession pat f) 0
        (PyVal.vstr kp) (PyVal.vstr pat) kw).1 = Except.ok ()) := by
  refine ⟨?_, ?_, ?_⟩
  · intro σ sess s kp pat kw Hps Htouch
    obtain ⟨st', h⟩ :=
      pollStop_always_match sess pat kw Hps 60
        (sess.run (sess.run s (psCmd pat)).2 ("touch " ++ kp)).2
    refine ⟨st', ?_⟩
    simp [stop_process_with_kill_file, PyVal.asStr, Hps, Htouch, h]
  · intro pat kw k
    exact ⟨stopLoopTrace_count_sleep pat kw k, stopLoopTrace_count_probe pat kw k⟩
  · intro kp pat kw f hf0 hne hex
    have hrun0 : (probeCountSession pat f).run 0 (psCmd pat) = (f 0, 1) := by
      simp [probeCountSession]
    have hrunT : (probeCountSession pat f).run 1 ("touch " ++ kp) = (false, 1) := by
      simp [probeCountSession, hne]
    have hloop := pollStop_early_ok pat kw f 60 1 hex
    simp [stop_process_with_kill_file, PyVal.asStr, hrun0, hf0, hrunT, hloop]

theorem C7_stop_polls_then_times_out_witness :
    (∃ st' : Unit, stop_process_with_kill_file allOkSession () (PyVal.vstr "/tmp/kill")
        (PyVal.vstr "myapp") []
      = (Except.error (Err.osError stopTimeoutMsg), st',
         Call.run (psCmd "myapp") true false [] :: Call.run "touch /tmp/kill" true false [] ::
           stopLoopTrace "myapp" [] 60)) ∧
    (stop_process_with_kill_file
      (probeCountSession "myapp" (fun n => decide (3 ≤ n))) 0
      (PyVal.vstr "/tmp/kill") (PyVal.vstr "myapp") []).1 = Except.ok () :=
  ⟨C7_stop_polls_then_times_out.1 Unit allOkSession () "/tmp/kill" "myapp" []
     (fun _ => rfl) (fun _ => rfl),
   C7_stop_polls_then_times_out.2.2 "/tmp/kill" "myapp" [] (fun n => decide (3 ≤ n))
     (by decide) (by decide) ⟨2, by omega, by decide, by decide⟩⟩

/-! ### C3: which error messages carry the failed command -/

/-- Whether `needle` occurs at the head of the second list. -/
def listStartsWith : List Char → List Char → Bool
  | [], _ => true
  | _ :: _, [] => false
  | a :: as, b :: bs => a == b && listStartsWith as bs

/-- Whether `needle` occurs contiguously anywhere in the second list. -/
def listContainsSeq (needle : List Char) : List Char → Bool
  | [] => needle.isEmpty
  | b :: bs => listStartsWith needle (b :: bs) || listContainsSeq needle bs

/-- Whether `needle` is a substring of `hay`. -/
def strHasSubstr (hay needle : String) : Bool := listContainsSeq needle.data hay.data

/-- Claim C3 is false as stated: when removing the kill file fails,
`start_process_with_kill_file` raises an OSError whose message interpolates
the kill-file path, not the offending `rm -v` command — the command string
does not occur in the message. -/
theorem C3_counterexample_rm_error_lacks_command :
    start_process_with_kill_file (failOnList [psCmd "myapp", "rm -v /tmp/kill"]) ()
        (PyVal.vstr "/tmp/kill") (PyVal.vstr "myapp") (PyVal.vstr "/srv/run.sh") []
      = (Except.error (Err.osError "Failed to remove the kill file by command: /tmp/kill"), (),
         [Call.run (psCmd "myapp") true false [], Call.run "ls -l /tmp/kill" true false [],
          Call.run "rm -v /tmp/kill" true false []]) ∧
    strHasSubstr "Failed to remove the kill file by command: /tmp/kill" "rm -v /tmp/kill"
      = false := by
  exact ⟨rfl, rfl⟩

/-- Claim C3, amended: every fatal error raised because a required remote
command returned non-zero interpolates that command into its message,
except the kill-file-removal failure of `start_process_with_kill_file`,
whose message interpolates the kill-file path instead of the `rm -v`
command; and the two 60-second poll-timeout errors are fixed messages
naming no command.  One conjunct per raise site, in source order. -/
theorem C3_amended_fatal_errors_and_commands :
    (∀ (σ : Type) (sess : Session σ) (s : σ) (p : String) (kw : Kw) (s1 : σ),
      sess.run s ("ls -l " ++ p) = (true, s1) →
      (sess.run s1 ("mkdir -pv " ++ p)).1 = true →
      (mkdir sess s (PyVal.vstr p) kw).1
        = Except.error (Err.osError
            ("Failed to create directory by command: " ++ ("mkdir -pv " ++ p)))) ∧
    (∀ (σ : Type) (sess : Session σ) (s : σ) (pf pt : String) (kw : Kw),
      (sess.run s ("ls -l " ++ pf)).1 = true →
      (backup sess s (PyVal.vstr pf) (PyVal.vstr pt) kw).1
        = Except.error (Err.valueError
            ("path_from does exist on host by command: " ++ ("ls -l " ++ pf)))) ∧
    (∀ (σ : Type) (sess : Session σ) (s : σ) (pf pt : String) (kw : Kw)
        (s1 s2 : σ) (t2 : List Call),
      sess.run s ("ls -l " ++ pf) = (false, s1) →
      mkdir sess s1 (PyVal.vstr pt) kw = (Except.ok (), s2, t2) →
      (sess.run s2 ("cp -prv " ++ pf ++ " " ++ pt)).1 = true →
      (backup sess s (PyVal.vstr pf) (PyVal.vstr pt) kw).1
        = Except.error (Err.osError
            ("Failed to back up file(s) by command: " ++ ("cp -prv " ++ pf ++ " " ++ pt)))) ∧
    (∀ (σ : Type) (sess : Session σ) (s : σ) (e : FSEntry) (rp : String) (kw : Kw),
      (sess.run s ("test -d " ++ rp)).1 = true →
      (upload sess s (PyObj.path e) (PyVal.vstr rp) kw).1
        = Except.error (Err.osError
            ("Remote path does not exists or is not a directory by command: "
              ++ ("test -d " ++ rp) ++ "."))) ∧
    (∀ (σ : Type) (sess : Session σ) (s : σ) (fp : String) (kw : Kw),
      (sess.run s ("ls -l " ++ fp)).1 = true →
      (enable_crontab sess s (PyVal.vstr fp) kw).1
        = Except.error (Err.fileNotFoundError
            ("Specified file is not found by command: " ++ ("ls -l " ++ fp)))) ∧
    (∀ (σ : Type) (sess : Session σ) (s : σ) (fp : String) (kw : Kw) (s1 s2 : σ) (b2 : Bool),
      sess.run s ("ls -l " ++ fp) = (false, s1) →
      sess.run s1 "crontab -l" = (b2, s2) →
      (sess.run s2 ("crontab " ++ fp)).1 = true →
      (enable_crontab sess s (PyVal.vstr fp) kw).1
        = Except.error (Err.osError
            ("Failed to enable crontab by command: " ++ ("crontab " ++ fp)))) ∧
    (∀ (σ : Type) (sess : Session σ) (s : σ) (ws sf : String) (kw : Kw),
      (sess.run s ("test -d " ++ ws)).1 = true →
      (disable_crontab_enter sess s (PyVal.vstr ws) (PyVal.vstr sf) kw).1
        = Except.error (Err.osError
            ("workspace does not exist or is not a directory by command: "
              ++ ("test -d " ++ ws) ++ "."))) ∧
    (∀ (σ : Type) (sess : Session σ) (s : σ) (ws sf : String) (kw : Kw) (s1 : σ),
      sess.run s ("test -d " ++ ws) = (false, s1) →
      (sess.run s1 ("crontab -l > " ++ ws ++ "/" ++ sf)).1 = true →
      (disable_crontab_enter sess s (PyVal.vstr ws) (PyVal.vstr sf) kw).1
        = Except.error (Err.osError
            ("Failed to save the crontab file by command: "
              ++ ("crontab -l > " ++ ws ++ "/" ++ sf)))) ∧
    (∀ (σ : Type) (sess : Session σ) (s : σ) (ws sf : String) (kw : Kw)
        (s1 s2 s3 s4 : σ) (b3 b4 : Bool),
      sess.run s ("test -d " ++ ws) = (false, s1) →
      sess.run s1 ("crontab -l > " ++ ws ++ "/" ++ sf) = (false, s2) →
      sess.run s2 ("cat " ++ ws ++ "/" ++ sf) = (b3, s3) →
      sess.run s3 ("rm " ++ ws ++ "/" ++ "crontab.empty") = (b4, s4) →
      (sess.run s4 ("touch " ++ ws ++ "/" ++ "crontab.empty")).1 = true →
      (disable_crontab_enter sess s (PyVal.vstr ws) (PyVal.vstr sf) kw).1
        = Except.error (Err.osError
            ("Failed to create a file by command: "
              ++ ("touch " ++ ws ++ "/" ++ "crontab.empty")))) ∧
    (∀ (σ : Type) (sess : Session σ) (s : σ) (ws sf : String) (kw : Kw)
        (s1 s2 s3 s4 s5 : σ) (b3 b4 : Bool),
      sess.run s ("test -d " ++ ws) = (false, s1) →
      sess.run s1 ("crontab -l > " ++ ws ++ "/" ++ sf) = (false, s2) →
      sess.run s2 ("cat " ++ ws ++ "/" ++ sf) = (b3, s3) →
      sess.run s3 ("rm " ++ ws ++ "/" ++ "crontab.empty") = (b4, s4) →
      sess.run s4 ("touch " ++ ws ++ "/" ++ "crontab.empty") = (false, s5) →
      (sess.run s5 ("crontab " ++ ws ++ "/" ++ "crontab.empty")).1 = true →
      (disable_crontab_enter sess s (PyVal.vstr ws) (PyVal.vstr sf) kw).1
        = Except.error (Err.osError
            ("Failed to disable crontab by command: "
              ++ ("crontab " ++ ws ++ "/" ++ "crontab.empty")))) ∧
    (∀ (σ : Type) (sess : Session σ) (s : σ) (kp pat : String) (kw : Kw) (s1 : σ),
      sess.run s (psCmd pat) = (false, s1) →
      (sess.run s1 ("touch " ++ kp)).1 = true →
      (stop_process_with_kill_file sess s (PyVal.vstr kp) (PyVal.vstr pat) kw).1
        = Except.error (Err.osError
            ("Failed to create a kill file by command: " ++ ("touch " ++ kp)))) ∧
    (∀ (σ : Type) (sess : Session σ) (s : σ) (kp pat ef : String) (kw : Kw) (s1 s2 : σ),
      sess.run s (psCmd pat) = (true, s1) →
      sess.run s1 ("ls -l " ++ kp) = (true, s2) →
      (sess.run s2 ("nohup sh " ++ ef ++ " &")).1 = true →
      (start_process_with_kill_file sess s
        (PyVal.vstr kp) (PyVal.vstr pat) (PyVal.vstr ef) kw).1
        = Except.error (Err.osError
            ("Failed to start the application by command: " ++ ("nohup sh " ++ ef ++ " &")))) ∧
    (∀ (σ : Type) (sess : Session σ) (s : σ) (kp pat ef : String) (kw : Kw) (s1 s2 : σ),
      sess.run s (psCmd pat) = (true, s1) →
      sess.run s1 ("ls -l " ++ kp) = (false, s2) →
      (sess.run s2 ("rm -v " ++ kp)).1 = true →
      (start_process_with_kill_file sess s
        (PyVal.vstr kp) (PyVal.vstr pat) (PyVal.vstr ef) kw).1
        = Except.error (Err.osError ("Failed to remove the kill file by command: " ++ kp))) ∧
    (∀ (σ : Type) (sess : Session σ) (pat : String) (kw : Kw) (s : σ),
      pollStop sess pat kw 0 s = (Except.error (Err.osError stopTimeoutMsg), s, []) ∧
      pollStart sess pat kw 0 s = (Except.error (Err.osError startTimeoutMsg), s, []) ∧
      stopTimeoutMsg
        = "Process could not be stopped within 60 seconds, Please check the server spec." ∧
      startTimeoutMsg
        = "Process could not be started within 60 seconds, Please check the server spec.") := by
  refine ⟨?_, ?_, ?_, ?_, ?_, ?_, ?_, ?_, ?_, ?_, ?_, ?_, ?_, ?_⟩
  · intro σ sess s p kw s1 h1 h2
    simp [mkdir, PyVal.isStr, PyVal.truthy, PyVal.asStr, h1, h2]
  · intro σ sess s pf pt kw h1
    simp [backup, PyVal.isStr, PyVal.truthy, PyVal.asStr, h1]
  · intro σ sess s pf pt kw s1 s2 t2 h1 hm h3
    simp [backup, PyVal.isStr, PyVal.truthy, PyVal.asStr, h1, hm, h3]
  · intro σ sess s e rp kw h1
    simp [upload, PyVal.isStr, PyVal.truthy, PyVal.asStr, h1]
  · intro σ sess s fp kw h1
    simp [enable_crontab, PyVal.isStr, PyVal.truthy, PyVal.asStr, h1]
  · intro σ sess s fp kw s1 s2 b2 h1 h2 h3
    simp [enable_crontab, PyVal.isStr, PyVal.truthy, PyVal.asStr, h1, h2, h3]
  · intro σ sess s ws sf kw h1
    simp [disable_crontab_enter, PyVal.isStr, PyVal.truthy, PyVal.asStr, h1]
  · intro σ sess s ws sf kw s1 h1 h2
    simp [disable_crontab_enter, PyVal.isStr, PyVal.truthy, PyVal.asStr, h1, h2]
  · intro σ sess s ws sf kw s1 s2 s3 s4 b3 b4 h1 h2 h3 h4 h5
    simp [disable_crontab_enter, PyVal.isStr, PyVal.truthy, PyVal.asStr, h1, h2, h3, h4, h5]
  · intro σ sess s ws sf kw s1 s2 s3 s4 s5 b3 b4 h1 h2 h3 h4 h5 h6
    simp [disable_crontab_enter, PyVal.isStr, PyVal.truthy, PyVal.asStr,
      h1, h2, h3, h4, h5, h6]
  · intro σ sess s kp pat kw s1 h1 h2
    simp [stop_process_with_kill_file, PyVal.asStr, h1, h2]
  · intro σ sess s kp pat ef kw s1 s2 h1 h2 h3
    simp [start_process_with_kill_file, PyVal.asStr, h1, h2, h3]
  · intro σ sess s kp pat ef kw s1 s2 h1 h2 h3
    simp [start_process_with_kill_file, PyVal.asStr, h1, h2, h3]
  · intro σ sess pat kw s
    exact ⟨rfl, rfl, rfl, rfl⟩

theorem C3_amended_fatal_errors_and_commands_witness :
    (mkdir (failOnList ["ls -l /a", "mkdir -pv /a"]) () (PyVal.vstr "/a") []).1
      = Except.error (Err.osError "Failed to create directory by command: mkdir -pv /a") ∧
    (backup (failOnList ["ls -l /src"]) () (PyVal.vstr "/src") (PyVal.vstr "/dst") []).1
      = Except.error (Err.valueError "path_from does exist on host by command: ls -l /src") ∧
    (backup (failOnList ["cp -prv /s /d"]) () (PyVal.vstr "/s") (PyVal.vstr "/d") []).1
      = Except.error (Err.osError "Failed to back up file(s) by command: cp -prv /s /d") ∧
    (upload (failOnList ["test -d /r"]) () (PyObj.path (FSEntry.file "f" "/l/f"))
        (PyVal.vstr "/r") []).1
      = Except.error (Err.osError
          "Remote path does not exists or is not a directory by command: test -d /r.") ∧
    (enable_crontab (failOnList ["ls -l /w/s"]) () (PyVal.vstr "/w/s") []).1
      = Except.error (Err.fileNotFoundError
          "Specified file is not found by command: ls -l /w/s") ∧
    (enable_crontab (failOnList ["crontab /w/s"]) () (PyVal.vstr "/w/s") []).1
      = Except.error (Err.osError "Failed to enable crontab by command: crontab /w/s") ∧
    (disable_crontab_enter (failOnList ["test -d /w"]) ()
        (PyVal.vstr "/w") (PyVal.vstr "s") []).1
      = Except.error (Err.osError
          "workspace does not exist or is not a directory by command: test -d /w.") ∧
    (disable_crontab_enter (failOnList ["crontab -l > /w/s"]) ()
        (PyVal.vstr "/w") (PyVal.vstr "s") []).1
      = Except.error (Err.osError
          "Failed to save the crontab file by command: crontab -l > /w/s") ∧
    (disable_crontab_enter (failOnList ["touch /w/crontab.empty"]) ()
        (PyVal.vstr "/w") (PyVal.vstr "s") []).1
      = Except.error (Err.osError
          "Failed to create a file by command: touch /w/crontab.empty") ∧
    (disable_crontab_enter (failOnList ["crontab /w/crontab.empty"]) ()
        (PyVal.vstr "/w") (PyVal.vstr "s") []).1
      = Except.error (Err.osError
          "Failed to disable crontab by command: crontab /w/crontab.empty") ∧
    (stop_process_with_kill_file (failOnList ["touch /tmp/kill"]) ()
        (PyVal.vstr "/tmp/kill") (PyVal.vstr "app") []).1
      = Except.error (Err.osError "Failed to create a kill file by command: touch /tmp/kill") ∧
    (start_process_with_kill_file
        (failOnList [psCmd "app", "ls -l /tmp/kill", "nohup sh /srv/run.sh &"]) ()
        (PyVal.vstr "/tmp/kill") (PyVal.vstr "app") (PyVal.vstr "/srv/run.sh") []).1
      = Except.error (Err.osError
          "Failed to start the application by command: nohup sh /srv/run.sh &") ∧
    (start_process_with_kill_file (failOnList [psCmd "app", "rm -v /tmp/kill"]) ()
        (PyVal.vstr "/tmp/kill") (PyVal.vstr "app") (PyVal.vstr "/srv/run.sh") []).1
      = Except.error (Err.osError "Failed to remove the kill file by command: /tmp/kill") ∧
    pollStop allOkSession "app" [] 0 ()
      = (Except.error (Err.osError stopTimeoutMsg), (), []) :=
  ⟨C3_amended_fatal_errors_and_commands.1 Unit (failOnList ["ls -l /a", "mkdir -pv /a"]) ()
     "/a" [] () (by decide) (by decide),
   C3_amended_fatal_errors_and_commands.2.1 Unit (failOnList ["ls -l /src"]) ()
     "/src" "/dst" [] (by decide),
   C3_amended_fatal_errors_and_commands.2.2.1 Unit (failOnList ["cp -prv /s /d"]) ()
     "/s" "/d" [] () () [Call.run "ls -l /d" true false []] rfl rfl rfl,
   C3_amended_fatal_errors_and_commands.2.2.2.1 Unit (failOnList ["test -d /r"]) ()
     (FSEntry.file "f" "/l/f") "/r" [] (by decide),
   C3_amended_fatal_errors_and_commands.2.2.2.2.1 Unit (failOnList ["ls -l /w/s"]) ()
     "/w/s" [] (by decide),
   C3_amended_fatal_errors_and_commands.2.2.2.2.2.1 Unit (failOnList ["crontab /w/s"]) ()
     "/w/s" [] () () false (by decide) (by decide) (by decide),
   C3_amended_fatal_errors_and_commands.2.2.2.2.2.2.1 Unit (failOnList ["test -d /w"]) ()
     "/w" "s" [] (by decide),
   C3_amended_fatal_errors_and_commands.2.2.2.2.2.2.2.1 Unit
     (failOnList ["crontab -l > /w/s"]) () "/w" "s" [] () (by decide) (by decide),
   C3_amended_fatal_errors_and_commands.2.2.2.2.2.2.2.2.1 Unit
     (failOnList ["touch /w/crontab.empty"]) () "/w" "s" [] () () () () false false
     (by decide) (by decide) (by decide) (by decide) (by decide),
   C3_amended_fatal_errors_and_commands.2.2.2.2.2.2.2.2.2.1 Unit
     (failOnList ["crontab /w/crontab.empty"]) () "/w" "s" [] () () () () () false false
     (by decide) (by decide) (by decide) (by decide) (by decide) (by decide),
   C3_amended_fatal_errors_and_commands.2.2.2.2.2.2.2.2.2.2.1 Unit
     (failOnList ["touch /tmp/kill"]) () "/tmp/kill" "app" [] () (by decide) (by decide),
   C3_amended_fatal_errors_and_commands.2.2.2.2.2.2.2.2.2.2.2.1 Unit
     (failOnList [psCmd "app", "ls -l /tmp/kill", "nohup sh /srv/run.sh &"]) ()
     "/tmp/kill" "app" "/srv/run.sh" [] () () (by decide) (by decide) (by decide),
   C3_amended_fatal_errors_and_commands.2.2.2.2.2.2.2.2.2.2.2.2.1 Unit
     (failOnList [psCmd "app", "rm -v /tmp/kill"]) ()
     "/tmp/kill" "app" "/srv/run.sh" [] () () (by decide) (by decide) (by decide),
   (C3_amended_fatal_errors_and_commands.2.2.2.2.2.2.2.2.2.2.2.2.2 Unit
     allOkSession "app" [] ()).1⟩

/-! ### C4: upload mirrors the local tree -/

mutual

/-- The remote directory paths the upload of an entry must create, in
creation (preorder) order. -/
def dirPaths : String → FSEntry → List String
  | _, .file _ _ => []
  | rp, .dir name cs => (rp ++ "/" ++ name) :: dirPathsList (rp ++ "/" ++ name) cs

def dirPathsList : String → List FSEntry → List String
  | _, [] => []
  | rp, c :: cs => dirPaths rp c ++ dirPathsList rp cs

end

mutual

/-- The `(local absolute path, remote target)` pairs the upload of an entry
must transfer, in transfer order. -/
def mirrorFiles : String → FSEntry → List (String × String)
  | rp, .file name abs => [(abs, rp ++ "/" ++ name)]
  | rp, .dir name cs => mirrorFilesList (rp ++ "/" ++ name) cs

def mirrorFilesList : String → List FSEntry → List (String × String)
  | _, [] => []
  | rp, c :: cs => mirrorFiles rp c ++ mirrorFilesList rp cs

end

mutual

/-- Specification-side description (from the spec's upload property) of the
full call trace a successful upload into a fresh remote destination should
produce: a `test -d` probe per visited entry, the `ls -l`/`mkdir -pv` pair
per directory, and one `put` per file, mirroring the local structure. -/
def uploadSpecTrace : String → Kw → FSEntry → List Call
  | rp, kw, .file name abs =>
    [Call.run ("test -d " ++ rp) true false kw, Call.put abs (rp ++ "/" ++ name)]
  | rp, kw, .dir name cs =>
    Call.run ("test -d " ++ rp) true false kw
      :: Call.run ("ls -l " ++ (rp ++ "/" ++ name)) true false kw
      :: Call.run ("mkdir -pv " ++ (rp ++ "/" ++ name)) true false kw
      :: uploadSpecTraceList (rp ++ "/" ++ name) kw cs

def uploadSpecTraceList : String → Kw → List FSEntry → List Call
  | _, _, [] => []
  | rp, kw, c :: cs => uploadSpecTrace rp kw c ++ uploadSpecTraceList rp kw cs

end

mutual

/-- Number of nodes of an entry (for the joint induction below). -/
def sizeE : FSEntry → Nat
  | .file _ _ => 1
  | .dir _ cs => 1 + sizeL cs

def sizeL : List FSEntry → Nat
  | [] => 0
  | c :: cs => sizeE c + sizeL cs

end

theorem sizeE_pos (e : FSEntry) : 1 ≤ sizeE e := by
  cases e <;> simp [sizeE]

theorem dirSession_run (S : List String) (cmd : String) :
    dirSession.run S cmd = dirRun S cmd := rfl

theorem dirSession_put (S : List String) (a b : String) :
    dirSession.put S a b = S := rfl

theorem contains_of_mem {S : List String} {p : String} (h : p ∈ S) :
    S.contains p = true := by
  simpa [List.contains] using (@List.elem_iff String _ _ p S).mpr h

theorem contains_eq_false_of_not_mem {S : List String} {p : String} (h : p ∉ S) :
    S.contains p = false := by
  cases hc : S.contains p
  · rfl
  · exact absurd ((@List.elem_iff String _ _ p S).mp
      (by simpa [List.contains] using hc)) h

/-- The statement of the C4 upload/trace correspondence for one entry. -/
def UploadP (e : FSEntry) : Prop :=
  ∀ (S : List String) (rp : String) (kw : Kw),
    rp ∈ S →
    (∀ q ∈ dirPaths rp e, q ∉ S) →
    (dirPaths rp e).Nodup →
    upload dirSession S (PyObj.path e) (PyVal.vstr rp) kw
      = (Except.ok (), (dirPaths rp e).reverse ++ S, uploadSpecTrace rp kw e)

/-- The statement of the C4 upload/trace correspondence for a child list. -/
def UploadQ (es : List FSEntry) : Prop :=
  ∀ (S : List String) (rp : String) (kw : Kw),
    rp ∈ S →
    (∀ q ∈ dirPathsList rp es, q ∉ S) →
    (dirPathsList rp es).Nodup →
    uploadChildren dirSession S es rp kw
      = (Except.ok (), (dirPathsList rp es).reverse ++ S, uploadSpecTraceList rp kw es)

theorem upload_dirSession_aux :
    ∀ n : Nat, (∀ e, sizeE e ≤ n → UploadP e) ∧ (∀ es, sizeL es ≤ n → UploadQ es) := by
  intro n
  induction n using Nat.strong_induction_on with
  | _ n ih =>
    have hP : ∀ e, sizeE e ≤ n → UploadP e := by
      intro e he
      cases e with
      | file name abs =>
        intro S rp kw hrp hfresh hnd
        have hprobe : dirRun S ("test -d " ++ rp) = (false, S) := by
          rw [dirRun_test, contains_of_mem hrp]
          rfl
        simp [upload, PyVal.isStr, PyVal.truthy, PyVal.asStr, hprobe, dirPaths,
          uploadSpecTrace, dirSession_run, dirSession_put]
      | dir name cs =>
        intro S rp kw hrp hfresh hnd
        have he' : 1 + sizeL cs ≤ n := by simpa [sizeE] using he
        have hQ := (ih (n - 1) (by omega)).2 cs (by omega)
        have hprobe : dirRun S ("test -d " ++ rp) = (false, S) := by
          rw [dirRun_test, contains_of_mem hrp]
          rfl
        have hfreshHead : (rp ++ "/" ++ name) ∉ S := hfresh _ (by simp [dirPaths])
        have hls : dirRun S ("ls -l " ++ (rp ++ "/" ++ name)) = (true, S) := by
          rw [dirRun_ls, contains_eq_false_of_not_mem hfreshHead]
          rfl
        have hmk : dirRun S ("mkdir -pv " ++ (rp ++ "/" ++ name))
            = (false, (rp ++ "/" ++ name) :: S) := dirRun_mkdir S _
        have hmkdir : mkdir dirSession S (PyVal.vstr (rp ++ "/" ++ name)) kw
            = (Except.ok (), (rp ++ "/" ++ name) :: S,
               [Call.run ("ls -l " ++ (rp ++ "/" ++ name)) true false kw,
                Call.run ("mkdir -pv " ++ (rp ++ "/" ++ name)) true false kw]) := by
          simp [mkdir, PyVal.isStr, PyVal.truthy, PyVal.asStr, dirSession_run, hls, hmk]
        have hndCons :
            (rp ++ "/" ++ name) ∉ dirPathsList (rp ++ "/" ++ name) cs ∧
              (dirPathsList (rp ++ "/" ++ name) cs).Nodup := by
          simpa [dirPaths, List.nodup_cons] using hnd
        have hchildren := hQ ((rp ++ "/" ++ name) :: S) (rp ++ "/" ++ name) kw
          (by simp)
          (by
            intro q hq
            simp only [List.mem_cons]
            rintro (hqe | hqS)
            · exact hndCons.1 (hqe ▸ hq)
            · exact hfresh q (by simp [dirPaths, hq]) hqS)
          hndCons.2
        simp [upload, PyVal.isStr, PyVal.truthy, PyVal.asStr, dirSession_run, hprobe, hmkdir,
          hchildren, dirPaths, uploadSpecTrace, List.reverse_cons, List.append_assoc]
    have hQn : ∀ es, sizeL es ≤ n → UploadQ es := by
      intro es hes
      cases es with
      | nil =>
        intro S rp kw _ _ _
        simp [uploadChildren, dirPathsList, uploadSpecTraceList]
      | cons c cs =>
        intro S rp kw hrp hfresh hnd
        have hes' : sizeE c + sizeL cs ≤ n := by simpa [sizeL] using hes
        have hc1 := sizeE_pos c
        have hPc := hP c (by omega)
        have hQcs := (ih (n - 1) (by omega)).2 cs (by omega)
        have hndApp : (dirPaths rp c ++ dirPathsList rp cs).Nodup := by
          simpa [dirPathsList] using hnd
        have hdisj := List.disjoint_of_nodup_append hndApp
        have h1 := hPc S rp kw hrp
          (fun q hq => hfresh q (by simp [dirPathsList, hq]))
          hndApp.of_append_left
        have h2 := hQcs ((dirPaths rp c).reverse ++ S) rp kw
          (by simp [hrp])
          (by
            intro q hq
            simp only [List.mem_append, List.mem_reverse]
            rintro (hqc | hqS)
            · exact hdisj hqc hq
            · exact hfresh q (by simp [dirPathsList, hq]) hqS)
          hndApp.of_append_right
        simp [uploadChildren, h1, h2, dirPathsList, uploadSpecTraceList,
          List.reverse_append, List.append_assoc]
    exact ⟨hP, hQn⟩

/-- The statement of the spec-trace content facts for one entry. -/
def TraceP (e : FSEntry) : Prop :=
  ∀ (rp : String) (kw : Kw),
    (uploadSpecTrace rp kw e).filterMap createdPath = dirPaths rp e ∧
    (uploadSpecTrace rp kw e).filterMap putTarget = mirrorFiles rp e

/-- The statement of the spec-trace content facts for a child list. -/
def TraceQ (es : List FSEntry) : Prop :=
  ∀ (rp : String) (kw : Kw),
    (uploadSpecTraceList rp kw es).filterMap createdPath = dirPathsList rp es ∧
    (uploadSpecTraceList rp kw es).filterMap putTarget = mirrorFilesList rp es

theorem uploadSpecTrace_content_aux :
    ∀ n : Nat, (∀ e, sizeE e ≤ n → TraceP e) ∧ (∀ es, sizeL es ≤ n → TraceQ es) := by
  intro n
  induction n using Nat.strong_induction_on with
  | _ n ih =>
    have hP : ∀ e, sizeE e ≤ n → TraceP e := by
      intro e he
      cases e with
      | file name abs =>
        intro rp kw
        simp [uploadSpecTrace, dirPaths, mirrorFiles, createdPath, putTarget,
          List.filterMap_cons, stripLead_mkdir_test]
      | dir name cs =>
        intro rp kw
        have he' : 1 + sizeL cs ≤ n := by simpa [sizeE] using he
        have hQ := (ih (n - 1) (by omega)).2 cs (by omega) (rp ++ "/" ++ name) kw
        simp [uploadSpecTrace, dirPaths, mirrorFiles, createdPath, putTarget,
          List.filterMap_cons, stripLead_mkdir_test, stripLead_mkdir_ls,
          stripLead_append, hQ.1, hQ.2]
    have hQn : ∀ es, sizeL es ≤ n → TraceQ es := by
      intro es hes
      cases es with
      | nil =>
        intro rp kw
        simp [uploadSpecTraceList, dirPathsList, mirrorFilesList]
      | cons c cs =>
        intro rp kw
        have hes' : sizeE c + sizeL cs ≤ n := by simpa [sizeL] using hes
        have hc1 := sizeE_pos c
        have h1 := hP c (by omega) rp kw
        have h2 := (ih (n - 1) (by omega)).2 cs (by omega) rp kw
        simp [uploadSpecTraceList, dirPathsList, mirrorFilesList,
          List.filterMap_append, h1.1, h1.2, h2.1, h2.2]
    exact ⟨hP, hQn⟩

/-- Claim C4: uploading a local tree into an existing, otherwise fresh
remote destination succeeds and issues exactly the mirrored trace: its
`mkdir -pv` calls are exactly the mirrored directory paths (one per
directory, the top level included, in preorder) and its `put` calls are
exactly the mirrored `(local, remote)` file pairs.  The concrete conjunct
shows local `a/b/c.txt` into `/r`: creation of `/r/a`, then `/r/a/b`, then
a transfer to `/r/a/b/c.txt`, in that order. -/
theorem C4_upload_mirrors_local_tree :
    (∀ (e : FSEntry) (S : List String) (rp : String) (kw : Kw),
      rp ∈ S →
      (∀ q ∈ dirPaths rp e, q ∉ S) →
      (dirPaths rp e).Nodup →
      upload dirSession S (PyObj.path e) (PyVal.vstr rp) kw
        = (Except.ok (), (dirPaths rp e).reverse ++ S, uploadSpecTrace rp kw e)) ∧
    (∀ (e : FSEntry) (rp : String) (kw : Kw),
      (uploadSpecTrace rp kw e).filterMap createdPath = dirPaths rp e ∧
      (uploadSpecTrace rp kw e).filterMap putTarget = mirrorFiles rp e) ∧
    ((upload dirSession ["/r"]
        (PyObj.path (FSEntry.dir "a" [FSEntry.dir "b" [FSEntry.file "c.txt" "/local/a/b/c.txt"]]))
        (PyVal.vstr "/r") []).2.2.filterMap structCall
      = [Call.run "mkdir -pv /r/a" true false [],
         Call.run "mkdir -pv /r/a/b" true false [],
         Call.put "/local/a/b/c.txt" "/r/a/b/c.txt"]) := by
  refine ⟨?_, ?_, ?_⟩
  · intro e S rp kw hrp hfresh hnd
    exact (upload_dirSession_aux (sizeE e)).1 e le_rfl S rp kw hrp hfresh hnd
  · intro e rp kw
    exact (uploadSpecTrace_content_aux (sizeE e)).1 e le_rfl rp kw
  · simp +decide [upload, uploadChildren, mkdir, dirSession, dirRun, stripLead, dropLead,
      structCall, List.filterMap_cons]

theorem C4_upload_mirrors_local_tree_witness :
    ("/r" ∈ (["/r"] : List String)) ∧
    (∀ q ∈ dirPaths "/r"
        (FSEntry.dir "a" [FSEntry.dir "b" [FSEntry.file "c.txt" "/local/a/b/c.txt"]]),
      q ∉ (["/r"] : List String)) ∧
    (dirPaths "/r"
        (FSEntry.dir "a" [FSEntry.dir "b" [FSEntry.file "c.txt" "/local/a/b/c.txt"]])).Nodup ∧
    upload dirSession ["/r"]
        (PyObj.path (FSEntry.dir "a" [FSEntry.dir "b" [FSEntry.file "c.txt" "/local/a/b/c.txt"]]))
        (PyVal.vstr "/r") []
      = (Except.ok (),
         (dirPaths "/r"
           (FSEntry.dir "a" [FSEntry.dir "b" [FSEntry.file "c.txt" "/local/a/b/c.txt"]])).reverse
           ++ ["/r"],
         uploadSpecTrace "/r" []
           (FSEntry.dir "a" [FSEntry.dir "b" [FSEntry.file "c.txt" "/local/a/b/c.txt"]])) :=
  ⟨by simp,
   by simp +decide [dirPaths, dirPathsList],
   by simp +decide [dirPaths, dirPathsList],
   C4_upload_mirrors_local_tree.1
     (FSEntry.dir "a" [FSEntry.dir "b" [FSEntry.file "c.txt" "/local/a/b/c.txt"]])
     ["/r"] "/r" [] (by simp)
     (by simp +decide [dirPaths, dirPathsList])
     (by simp +decide [dirPaths, dirPathsList])⟩

end RemoteOp
